import Mathlib

set_option maxRecDepth 100000

/-!
# Verification of the MedLit classification / validation core

Shallow embedding of the pure, deterministic algorithms of the repository:

* the canonical label normalizer (`normalizeStudyType`, `normalizeFramework`),
* the heuristic override engine (`inferFromReasons`),
* the framework inference table (`inferFrameworkFromStudyType`),
* the pure classification pipeline of `detectStudyType` (`classifyParsed`),
* the content validity scorer (`validateMethodologyText` in `validators.js`),
* the confidence-weighted score dampener inside `evaluateMethodology`.

JavaScript strings are modelled as Lean `String`s; `s.includes(t)`,
`s.trim()`, `s.toLowerCase()` and `s.toUpperCase()` are modelled by the
`js*` helpers below (ASCII case mapping, which is what all inputs in this
code base use).  JavaScript `null`/`undefined`/non-string inputs are
modelled by `Option String` with `none` for every non-string value.
JavaScript numbers are modelled by `Nat`/`ℚ`: every arithmetic operation
performed by this code (weights that are multiples of 1/2, factors 0.3 /
0.5 / 0.65 / 0.8 / 0.75^k on integer scores ≤ 100) is exact in binary64
double precision, so exact rational arithmetic together with
round-half-up (`Math.round`) is a faithful model of the source.

The `aiClient.js` source file contains several revisions of the same
module back to back; the definitions below embed the final (most recent)
revision of each function, which is the one the specification describes.
-/

/-- Model of the JavaScript whitespace class used by `String.prototype.trim`
(restricted to the ASCII whitespace characters that can occur here). -/
def jsIsSpace (c : Char) : Bool :=
  c == ' ' || c == '\t' || c == '\n' || c == '\r' || c == '\x0b' || c == '\x0c'

/-- Model of `s.trim()`: drop leading and trailing whitespace. -/
def jsTrim (s : String) : String :=
  String.mk (((s.data.dropWhile jsIsSpace).reverse.dropWhile jsIsSpace).reverse)

/-- Model of `s.toLowerCase()` (ASCII). -/
def jsLower (s : String) : String :=
  String.mk (s.data.map Char.toLower)

/-- Model of `s.toUpperCase()` (ASCII). -/
def jsUpper (s : String) : String :=
  String.mk (s.data.map Char.toUpper)

/-- Boolean test that `sub` is a prefix of `l`. -/
def listPref : List Char → List Char → Bool
  | [], _ => true
  | _ :: _, [] => false
  | a :: as, b :: bs => a == b && listPref as bs

/-- Boolean test that `sub` occurs contiguously inside `l`. -/
def listOccurs : List Char → List Char → Bool
  | sub, [] => sub.isEmpty
  | sub, c :: rest => listPref sub (c :: rest) || listOccurs sub rest

/-- Model of `s.includes(sub)`. -/
def jsIncludes (s sub : String) : Bool :=
  listOccurs sub.data s.data

theorem listPref_iff (sub l : List Char) :
    listPref sub l = true ↔ ∃ post, l = sub ++ post := by
  induction sub generalizing l with
  | nil => simp [listPref]
  | cons a as ih =>
    cases l with
    | nil => simp [listPref]
    | cons b bs =>
      simp only [listPref, Bool.and_eq_true, beq_iff_eq, ih]
      constructor
      · rintro ⟨rfl, post, rfl⟩; exact ⟨post, rfl⟩
      · rintro ⟨post, h⟩
        injection h with h1 h2
        exact ⟨h1.symm, post, h2⟩

theorem listOccurs_iff (sub l : List Char) :
    listOccurs sub l = true ↔ ∃ pre post, l = pre ++ sub ++ post := by
  induction l with
  | nil =>
    simp only [listOccurs, List.isEmpty_iff]
    constructor
    · rintro rfl; exact ⟨[], [], rfl⟩
    · rintro ⟨pre, post, h⟩
      rcases List.append_eq_nil.mp (List.append_eq_nil.mp h.symm).1 with ⟨-, h2⟩
      exact h2
  | cons c rest ih =>
    simp only [listOccurs, Bool.or_eq_true, listPref_iff, ih]
    constructor
    · rintro (⟨post, h⟩ | ⟨pre, post, h⟩)
      · exact ⟨[], post, by simpa using h⟩
      · exact ⟨c :: pre, post, by simp [h]⟩
    · rintro ⟨pre, post, h⟩
      cases pre with
      | nil => exact Or.inl ⟨post, by simpa using h⟩
      | cons p ps =>
        injection h with h1 h2
        exact Or.inr ⟨ps, post, h2⟩

/-- Containment is transitive: if `b` occurs in `a` and `c` occurs in `b`,
then `c` occurs in `a`. -/
theorem jsIncludes_trans {a b c : String}
    (hab : jsIncludes a b = true) (hbc : jsIncludes b c = true) :
    jsIncludes a c = true := by
  unfold jsIncludes at *
  rw [listOccurs_iff] at *
  obtain ⟨p1, q1, h1⟩ := hab
  obtain ⟨p2, q2, h2⟩ := hbc
  exact ⟨p1 ++ p2, q2 ++ q1, by simp [h1, h2]⟩

/-- A nonempty string never occurs in the empty string. -/
theorem jsIncludes_empty (c : String) (h : c ≠ "") :
    jsIncludes "" c = false := by
  cases hc : jsIncludes "" c
  · rfl
  · exfalso
    unfold jsIncludes at hc
    rw [listOccurs_iff] at hc
    obtain ⟨pre, post, hpp⟩ := hc
    have : c.data = [] := (List.append_eq_nil.mp (List.append_eq_nil.mp hpp.symm).1).2
    exact h (by cases c; simpa [String.ext_iff] using this)

/-! ## Canonical label normalizer (`aiClient.js`, final revision) -/

/-- The canonical study-type enumeration, in source order. -/
def canonicalStudyTypes : List String :=
  ["RCT", "Cohort", "Case-Control", "Cross-Sectional", "Systematic Review",
   "Meta-Analysis", "Diagnostic Accuracy", "Case Report", "Case Series",
   "Qualitative", "Basic Science", "Other"]

/-- The canonical reporting-framework enumeration, in source order. -/
def canonicalFrameworks : List String :=
  ["CONSORT", "STROBE", "PRISMA", "STARD", "CARE", "COREQ", "PICO", "None"]

/-- Embedding of `normalizeStudyType(value)`.  `none` models every
`null`/`undefined`/non-string input (all of which take the
`!value || typeof value !== 'string'` early return). -/
def normalizeStudyType (v : Option String) : String :=
  match v with
  | none => "Other"
  | some value =>
    if value = "" then "Other"
    else
      let normalized := jsLower (jsTrim value)
      if canonicalStudyTypes.contains (jsTrim value) then jsTrim value
      else if jsIncludes normalized "rct" || jsIncludes normalized "randomized controlled" ||
              jsIncludes normalized "randomised controlled" then "RCT"
      else if jsIncludes normalized "diagnostic accuracy" || jsIncludes normalized "diagnostic test" then
        "Diagnostic Accuracy"
      else if jsIncludes normalized "case-control" || jsIncludes normalized "case control" then
        "Case-Control"
      else if jsIncludes normalized "cross-sectional" || jsIncludes normalized "cross sectional" then
        "Cross-Sectional"
      else if jsIncludes normalized "cohort study" ||
              (jsIncludes normalized "cohort" && !jsIncludes normalized "not a cohort") then
        "Cohort"
      else if jsIncludes normalized "case series" then "Case Series"
      else if jsIncludes normalized "case report" then "Case Report"
      else if jsIncludes normalized "qualitative" then "Qualitative"
      else if jsIncludes normalized "basic science" || jsIncludes normalized "bench" ||
              jsIncludes normalized "in vitro" || jsIncludes normalized "in vivo" then
        "Basic Science"
      else if (jsIncludes normalized "is a systematic review" ||
               jsIncludes normalized "systematic review of") &&
              !jsIncludes normalized "not a systematic review" &&
              !jsIncludes normalized "not systematic review" then
        "Systematic Review"
      else if (jsIncludes normalized "is a meta-analysis" ||
               jsIncludes normalized "meta-analysis of" ||
               jsIncludes normalized "metaanalysis") &&
              !jsIncludes normalized "not a meta-analysis" &&
              !jsIncludes normalized "no meta-analysis" then
        "Meta-Analysis"
      else if jsIncludes normalized "clinical trial" || jsIncludes normalized "randomised" ||
              jsIncludes normalized "randomized" then
        "RCT"
      else "Other"

/-- Embedding of `normalizeFramework(value)`. -/
def normalizeFramework (v : Option String) : String :=
  match v with
  | none => "None"
  | some value =>
    if value = "" then "None"
    else
      let normalized := jsUpper (jsTrim value)
      if canonicalFrameworks.contains normalized then normalized
      else if jsIncludes normalized "CONSORT" then "CONSORT"
      else if jsIncludes normalized "STROBE" then "STROBE"
      else if jsIncludes normalized "PRISMA" then "PRISMA"
      else if jsIncludes normalized "STARD" then "STARD"
      else if jsIncludes normalized "CARE" then "CARE"
      else if jsIncludes normalized "COREQ" then "COREQ"
      else if jsIncludes normalized "PICO" then "PICO"
      else "None"

/-- The static study-type → framework mapping object, in source order. -/
def studyFrameworkPairs : List (String × String) :=
  [("RCT", "CONSORT"), ("Cohort", "STROBE"), ("Case-Control", "STROBE"),
   ("Cross-Sectional", "STROBE"), ("Systematic Review", "PRISMA"),
   ("Meta-Analysis", "PRISMA"), ("Diagnostic Accuracy", "STARD"),
   ("Case Report", "CARE"), ("Case Series", "CARE"),
   ("Qualitative", "COREQ"), ("Basic Science", "None"), ("Other", "None")]

/-- Embedding of `inferFrameworkFromStudyType(studyType)`:
`mapping[studyType] || "None"`. -/
def inferFrameworkFromStudyType (studyType : String) : String :=
  ((studyFrameworkPairs.lookup studyType).getD "None")

/-- Embedding of `inferFromReasons(reasonsText)` (final revision).
Returns the pair `(result.studyType, result.framework)`; `none` models
`null`. -/
def inferFromReasons (t : String) : Option String × Option String :=
  if t = "" then (none, none)
  else
    let st : Option String :=
      if jsIncludes t "randomized" || jsIncludes t "randomised" ||
         jsIncludes t "rct" || jsIncludes t "phase 2" || jsIncludes t "phase 3" ||
         jsIncludes t "phase ii" || jsIncludes t "phase iii" ||
         jsIncludes t "randomized controlled" || jsIncludes t "randomised controlled" then
        some "RCT"
      else if jsIncludes t "cohort study" || jsIncludes t "cohort design" ||
              (jsIncludes t "cohort" && jsIncludes t "prospective") then
        some "Cohort"
      else if jsIncludes t "case-control" || jsIncludes t "case control" then
        some "Case-Control"
      else if jsIncludes t "cross-sectional" || jsIncludes t "cross sectional" then
        some "Cross-Sectional"
      else if jsIncludes t "diagnostic accuracy" || jsIncludes t "diagnostic test" ||
              (jsIncludes t "sensitivity" && jsIncludes t "specificity" &&
               jsIncludes t "diagnostic") then
        some "Diagnostic Accuracy"
      else if jsIncludes t "case series" then some "Case Series"
      else if jsIncludes t "case report" then some "Case Report"
      else if jsIncludes t "qualitative" || jsIncludes t "interviews" ||
              jsIncludes t "focus groups" || jsIncludes t "thematic analysis" then
        some "Qualitative"
      else if jsIncludes t "in vitro" || jsIncludes t "in vivo" ||
              jsIncludes t "animal model" || jsIncludes t "bench" then
        some "Basic Science"
      else if (jsIncludes t "is a systematic review" ||
               jsIncludes t "systematic review of" ||
               jsIncludes t "systematically reviewed") &&
              !jsIncludes t "not a systematic review" &&
              !jsIncludes t "not systematic" then
        some "Systematic Review"
      else if (jsIncludes t "is a meta-analysis" ||
               jsIncludes t "meta-analysis of" ||
               jsIncludes t "pooled analysis") &&
              !jsIncludes t "not a meta-analysis" &&
              !jsIncludes t "no meta-analysis" then
        some "Meta-Analysis"
      else if jsIncludes t "clinical trial" then some "RCT"
      else none
    let fw : Option String :=
      if jsIncludes t "consort" then some "CONSORT"
      else if jsIncludes t "strobe" then some "STROBE"
      else if jsIncludes t "prisma" then some "PRISMA"
      else if jsIncludes t "stard" then some "STARD"
      else if jsIncludes t "care guideline" || jsIncludes t "care framework" then some "CARE"
      else if jsIncludes t "coreq" then some "COREQ"
      else if jsIncludes t "pico" then some "PICO"
      else none
    (st, fw)

/-- The two guarded override assignments of `detectStudyType`:
`if (override.studyType && studyType === "Other") studyType = override.studyType;`
and the analogous framework line. -/
def applyOverride (st0 fw0 : String) (ov : Option String × Option String) :
    String × String :=
  (match ov.1 with
   | some x => if st0 = "Other" then x else st0
   | none => st0,
   match ov.2 with
   | some x => if fw0 = "None" then x else fw0
   | none => fw0)

/-- Embedding of the pure classification pipeline inside `detectStudyType`
(normalize, heuristic override when a sentinel was produced, framework
inference from the study type).  `reasons = none` models a non-array
`parsed.reasons`, in which case the source uses the empty string. -/
def classifyParsed (stRaw fwRaw : Option String) (reasons : Option (List String)) :
    String × String :=
  let st0 := normalizeStudyType stRaw
  let fw0 := normalizeFramework fwRaw
  let stfw :=
    if st0 = "Other" || fw0 = "None" then
      applyOverride st0 fw0
        (inferFromReasons (jsLower (String.intercalate " " (reasons.getD []))))
    else (st0, fw0)
  if stfw.2 = "None" && stfw.1 ≠ "Other" then
    let inferred := inferFrameworkFromStudyType stfw.1
    if inferred ≠ "None" then (stfw.1, inferred) else stfw
  else stfw

/-! ## Content validity scorer (`validators.js`) -/

/-- Trigger phrases of the `"design"` category (weight 3). -/
def designKeywords : List String :=
  ["study design", "research design", "experimental design", "trial design",
   "methodology", "methods", "procedures", "protocol", "study protocol"]

/-- Trigger phrases of the `"studyType"` category (weight 2.5). -/
def studyTypeKeywords : List String :=
  ["randomized", "randomised", "double-blind", "single-blind", "placebo-controlled",
   "cohort", "case-control", "cross-sectional", "prospective", "retrospective",
   "systematic review", "meta-analysis", "qualitative", "quantitative",
   "open-label", "controlled trial", "observational study"]

/-- Trigger phrases of the `"sample"` category (weight 2). -/
def sampleKeywords : List String :=
  ["participants", "patients", "subjects", "sample size", "population",
   "inclusion criteria", "exclusion criteria", "recruitment", "enrollment", "enrolled",
   "eligibility", "screening", "selected", "recruited"]

/-- Trigger phrases of the `"statistics"` category (weight 2.5).  The
mixed-case entries are kept exactly as in the source (they are compared
against lowercased text). -/
def statisticsKeywords : List String :=
  ["statistical analysis", "statistical test", "confidence interval", "p-value",
   "regression", "anova", "chi-square", "t-test", "Mann-Whitney", "Wilcoxon",
   "power analysis", "sample size calculation", "intention-to-treat", "per-protocol",
   "kaplan-meier", "cox regression", "logistic regression", "hazard ratio"]

/-- Trigger phrases of the `"data"` category (weight 1.5). -/
def dataKeywords : List String :=
  ["data collection", "measurement", "assessment", "outcome measure",
   "questionnaire", "interview", "survey", "follow-up", "baseline",
   "endpoints", "variables", "instruments", "scales"]

/-- Trigger phrases of the `"intervention"` category (weight 1.5). -/
def interventionKeywords : List String :=
  ["intervention", "treatment", "therapy", "dosage", "administration",
   "control group", "treatment group", "comparison", "versus",
   "experimental group", "placebo"]

/-- Trigger phrases of the `"ethics"` category (weight 1). -/
def ethicsKeywords : List String :=
  ["ethical approval", "ethics committee", "institutional review board", "IRB",
   "informed consent", "consent form", "ethics", "approved by"]

/-- The anti-pattern phrase list. -/
def antiPatternList : List String :=
  ["introduction", "background", "literature review",
   "in conclusion", "to conclude", "in summary",
   "discussion", "limitations", "future research",
   "results showed", "we found that", "our findings",
   "figure 1", "figure 2", "table 1", "table 2"]

/-- The lowercased trimmed text the scorer actually scans
(`normalizedText = trimmed.toLowerCase()`). -/
def normText (t : String) : String := jsLower (jsTrim t)

/-- Number of trigger phrases of one category found in the text:
`config.keywords.filter(keyword => normalizedText.includes(keyword)).length`. -/
def categoryCount (kws : List String) (t : String) : Nat :=
  kws.countP (fun kw => jsIncludes (normText t) kw)

/-- Number of anti-pattern phrases found in the text. -/
def antiPatternCount (t : String) : Nat :=
  antiPatternList.countP (fun kw => jsIncludes (normText t) kw)

/-- Model of `Math.round` on a rational: round half up, i.e. `⌊q + 1/2⌋`
(written with `Rat.floor` so that it evaluates by kernel reduction). -/
def jsRound (q : ℚ) : ℤ := (q + 1/2).floor

theorem jsRound_eq (q : ℚ) : jsRound q = ⌊q + 1/2⌋ := by
  unfold jsRound
  rw [Rat.floor_def', ← Rat.floor_def]

/-- Model of `Math.round(Math.max(0, Math.min(100, q)))` as a natural number. -/
def jsRoundClamp (q : ℚ) : Nat := (jsRound (max 0 (min 100 q))).toNat

/-- The `details` object of a validation record. -/
structure ValidationDetails where
  totalMatches : Nat
  categoriesWithMatches : Nat
  antiPatternMatches : Nat
  categoryBreakdown : List (String × Nat)
deriving DecidableEq, Repr

/-- The record returned by `validateMethodologyText`.  The short-text early
return carries no `threshold` and no `details` field, which is modelled by
`Option`. -/
structure ValidationRecord where
  isValid : Bool
  confidence : Nat
  threshold : Option Nat
  reason : String
  details : Option ValidationDetails
deriving DecidableEq, Repr

/-- Embedding of `validateMethodologyText(text)` from `validators.js`. -/
def validateMethodologyText (text : String) : ValidationRecord :=
  let trimmed := jsTrim text
  if trimmed.length < 100 then
    { isValid := false
      confidence := 0
      threshold := none
      reason := "Text is too short to be a meaningful methodology section (minimum 100 characters)."
      details := none }
  else
    let cntDesign := categoryCount designKeywords text
    let cntStudyType := categoryCount studyTypeKeywords text
    let cntSample := categoryCount sampleKeywords text
    let cntStatistics := categoryCount statisticsKeywords text
    let cntData := categoryCount dataKeywords text
    let cntIntervention := categoryCount interventionKeywords text
    let cntEthics := categoryCount ethicsKeywords text
    let totalMatches :=
      cntDesign + cntStudyType + cntSample + cntStatistics + cntData + cntIntervention + cntEthics
    let weightedScore : ℚ :=
      3 * cntDesign + (5/2) * cntStudyType + 2 * cntSample + (5/2) * cntStatistics +
      (3/2) * cntData + (3/2) * cntIntervention + 1 * cntEthics
    let categoryMatches : List (String × Nat) :=
      [("design", cntDesign), ("studyType", cntStudyType), ("sample", cntSample),
       ("statistics", cntStatistics), ("data", cntData),
       ("intervention", cntIntervention), ("ethics", cntEthics)]
    let antiPatternMatches := antiPatternCount text
    let categoriesWithMatches := (categoryMatches.filter (fun p => 0 < p.2)).length
    let highValueMatches := cntDesign + cntStatistics + cntStudyType
    let base : ℚ :=
      if 2 ≤ totalMatches ∧ (3 : ℚ) ≤ weightedScore then
        min (weightedScore * 4) 60 + min ((categoriesWithMatches : ℚ) * 6) 25 +
          min ((highValueMatches : ℚ) * 2) 15
      else 0
    let confidence : Nat := jsRoundClamp (base * (3/4) ^ antiPatternMatches)
    let isValid : Bool := decide (60 ≤ confidence)
    { isValid := isValid
      confidence := confidence
      threshold := some 60
      reason :=
        if isValid then
          "Text appears to contain methodology content (" ++ toString totalMatches ++
            " methodology indicators found across " ++ toString categoriesWithMatches ++
            " categories)."
        else if 0 < antiPatternMatches then
          "Text appears to be from a different section (" ++ toString antiPatternMatches ++
            " non-methodology indicators detected)."
        else
          "Text lacks sufficient methodology indicators (found " ++ toString totalMatches ++
            ", need at least 3 with good distribution)."
      details := some
        { totalMatches := totalMatches
          categoriesWithMatches := categoriesWithMatches
          antiPatternMatches := antiPatternMatches
          categoryBreakdown := categoryMatches } }

/-! ## Confidence-weighted score dampener (`evaluateMethodology`) -/

/-- Model of `Math.max(validation.confidence, aiValidation?.confidence || 0)`. -/
def effectiveConfidence (preConf : Nat) (selfConf : Option Nat) : Nat :=
  max preConf (selfConf.getD 0)

/-- The confidence-band scale factor of `evaluateMethodology`. -/
def scaleFactor (conf : Nat) : ℚ :=
  if conf < 50 then 3/10
  else if conf < 60 then 1/2
  else if conf < 70 then 13/20
  else 4/5

/-- The numeric fields of the parsed methodology assessment that the
dampener touches.  A sub-score of `some 0` models a present-but-zero
`score` field, which the truthiness guard `if (parsed.X?.score)` skips. -/
structure MethodologyScores where
  researchQuestionClarity : Option Nat
  sampleSizePower : Option Nat
  randomization : Option Nat
  statisticalApproach : Option Nat
  overallQualityScore : Option Nat
  keyLimitations : Option (List String)
deriving DecidableEq, Repr

/-- One sub-score update:
`score = Math.round(score * scaleFactor); if (score < 1) score = 1;`
guarded by the truthiness of the old score. -/
def dampSub (conf : Nat) (x : Option Nat) : Option Nat :=
  match x with
  | none => none
  | some v =>
    if v = 0 then some 0
    else
      let v' := (jsRound ((v : ℚ) * scaleFactor conf)).toNat
      some (if v' < 1 then 1 else v')

/-- The overall-score update (no floor). -/
def dampOverall (conf : Nat) (x : Option Nat) : Option Nat :=
  match x with
  | none => none
  | some v =>
    if v = 0 then some 0
    else some ((jsRound ((v : ℚ) * scaleFactor conf)).toNat)

/-- The limitation note `unshift`ed onto `keyLimitations`. -/
def limitationNote (conf : Nat) : String :=
  "Assessment confidence is " ++ toString conf ++
    "%. The selected text may not be entirely from a methodology section, which affects score reliability."

/-- Embedding of the dampening step of `evaluateMethodology` (the block
guarded by `effectiveConfidence < 80`). -/
def dampen (conf : Nat) (m : MethodologyScores) : MethodologyScores :=
  if conf < 80 then
    { researchQuestionClarity := dampSub conf m.researchQuestionClarity
      sampleSizePower := dampSub conf m.sampleSizePower
      randomization := dampSub conf m.randomization
      statisticalApproach := dampSub conf m.statisticalApproach
      overallQualityScore := dampOverall conf m.overallQualityScore
      keyLimitations := some (limitationNote conf :: m.keyLimitations.getD []) }
  else m

/-! ## Claim theorems -/

/-- A concrete ≥100-character methodology text used by several witnesses. -/
def sampleMethodsText : String :=
  "In this randomized controlled trial, participants received placebo or active drug. A sample size calculation determined enrollment. Statistical analysis used regression models."

/-- C1 counterexample: with the payload `{studyType: "Systematic Review"}`
and the rationale "this is not a systematic review, it is a randomized
trial that cites several systematic reviews", the pipeline does *not*
produce `RCT` — the exact canonical label short-circuits the normalizer
before any negation guard, and the override engine never overwrites a
non-sentinel study type. -/
theorem c1_counterexample :
    (classifyParsed (some "Systematic Review") none
      (some ["this is not a systematic review, it is a randomized trial that cites several systematic reviews"])).1
      ≠ "RCT" := by decide

/-- C1 (amended): on the Scenario D payload the pipeline returns
`studyType = "Systematic Review"` (with framework `PRISMA` inferred from
it): the exact canonical match wins and the rationale's negation guard is
never consulted, because the override engine only fills sentinel fields. -/
theorem c1_amended :
    classifyParsed (some "Systematic Review") none
      (some ["this is not a systematic review, it is a randomized trial that cites several systematic reviews"])
      = ("Systematic Review", "PRISMA") := by decide

/-- C5: exact-match priority — `normalizeStudyType "RCT" = "RCT"`, and every
canonical study-type string is returned unchanged by the normalizer. -/
theorem c5_exact_match_priority :
    normalizeStudyType (some "RCT") = "RCT" ∧
    canonicalStudyTypes.all (fun c => normalizeStudyType (some c) == c) = true := by
  constructor <;> decide

/-- C6 counterexample: the record returned for the empty text (trimmed
length < 100) carries *no* `threshold` and *no* `details` field — the
short-text early return only populates `isValid`, `confidence` and
`reason`, refuting the claim that every returned record contains all five
fields. -/
theorem c6_counterexample :
    (validateMethodologyText "").threshold = none ∧
    (validateMethodologyText "").details = none ∧
    (validateMethodologyText "").isValid = false ∧
    (validateMethodologyText "").confidence = 0 := by decide

/-- C6 (amended): texts whose trimmed length reaches 100 characters get a
record with `threshold = 60` and a full `details` object (whose
`categoryBreakdown` lists the seven categories in table order); shorter
texts are rejected with `isValid = false`, confidence 0, and a record that
omits `threshold` and `details`. -/
theorem c6_amended (t : String) :
    ((jsTrim t).length < 100 →
      (validateMethodologyText t).threshold = none ∧
      (validateMethodologyText t).details = none ∧
      (validateMethodologyText t).isValid = false ∧
      (validateMethodologyText t).confidence = 0) ∧
    (100 ≤ (jsTrim t).length →
      (validateMethodologyText t).threshold = some 60 ∧
      (validateMethodologyText t).details.map
          (fun d => d.categoryBreakdown.map Prod.fst) =
        some ["design", "studyType", "sample", "statistics", "data", "intervention", "ethics"]) := by
  constructor
  · intro h
    simp [validateMethodologyText, h]
  · intro h
    have h' : ¬ (jsTrim t).length < 100 := by omega
    exact ⟨by simp [validateMethodologyText, h'], by simp [validateMethodologyText, h']⟩

/-- Witness for `c6_amended` at the empty text and at a concrete long
methodology text. -/
theorem c6_amended_witness :
    ((validateMethodologyText "").threshold = none ∧
      (validateMethodologyText "").details = none ∧
      (validateMethodologyText "").isValid = false ∧
      (validateMethodologyText "").confidence = 0) ∧
    ((validateMethodologyText sampleMethodsText).threshold = some 60 ∧
      (validateMethodologyText sampleMethodsText).details.map
          (fun d => d.categoryBreakdown.map Prod.fst) =
        some ["design", "studyType", "sample", "statistics", "data", "intervention", "ethics"]) :=
  ⟨(c6_amended "").1 (by decide), (c6_amended sampleMethodsText).2 (by decide)⟩

/-- C7: sentinel totality — `null`, empty and non-string inputs normalize
to the sentinels, and the framework-inference table is total on the
canonical study types (with `Other → None` and `Basic Science → None`). -/
theorem c7_sentinel_totality :
    normalizeStudyType none = "Other" ∧
    normalizeStudyType (some "") = "Other" ∧
    normalizeFramework none = "None" ∧
    normalizeFramework (some "") = "None" ∧
    canonicalStudyTypes.all
      (fun st => canonicalFrameworks.contains (inferFrameworkFromStudyType st)) = true ∧
    inferFrameworkFromStudyType "Other" = "None" ∧
    inferFrameworkFromStudyType "Basic Science" = "None" := by
  refine ⟨rfl, by decide, rfl, by decide, by decide, by decide, by decide⟩

/-- C3: dampener postcondition.  With `effectiveConfidence` at least 80 the
scores are untouched; below 80 the band factors are 0.30 / 0.50 / 0.65 /
0.80, every present sub-score becomes `round(old × factor)` floored at 1,
the overall quality score is rescaled without a floor, and the limitation
note is prepended to `keyLimitations`; in particular a sub-score of 4 at
confidence 55 becomes 2 and an overall score of 80 becomes 40. -/
theorem c3_dampener :
    (∀ pre self m, 80 ≤ effectiveConfidence pre self →
      dampen (effectiveConfidence pre self) m = m) ∧
    (∀ conf : Nat,
      (conf < 50 → scaleFactor conf = 3/10) ∧
      (50 ≤ conf → conf < 60 → scaleFactor conf = 1/2) ∧
      (60 ≤ conf → conf < 70 → scaleFactor conf = 13/20) ∧
      (70 ≤ conf → conf < 80 → scaleFactor conf = 4/5)) ∧
    (∀ conf m, conf < 80 →
      (∀ v : Nat, m.researchQuestionClarity = some v → 1 ≤ v →
        (dampen conf m).researchQuestionClarity =
          some (max 1 ((jsRound ((v : ℚ) * scaleFactor conf)).toNat))) ∧
      (∀ v : Nat, m.sampleSizePower = some v → 1 ≤ v →
        (dampen conf m).sampleSizePower =
          some (max 1 ((jsRound ((v : ℚ) * scaleFactor conf)).toNat))) ∧
      (∀ v : Nat, m.randomization = some v → 1 ≤ v →
        (dampen conf m).randomization =
          some (max 1 ((jsRound ((v : ℚ) * scaleFactor conf)).toNat))) ∧
      (∀ v : Nat, m.statisticalApproach = some v → 1 ≤ v →
        (dampen conf m).statisticalApproach =
          some (max 1 ((jsRound ((v : ℚ) * scaleFactor conf)).toNat))) ∧
      (∀ w : Nat, m.overallQualityScore = some w →
        (dampen conf m).overallQualityScore =
          some ((jsRound ((w : ℚ) * scaleFactor conf)).toNat)) ∧
      (dampen conf m).keyLimitations =
        some (limitationNote conf :: m.keyLimitations.getD [])) ∧
    (dampen 55
      { researchQuestionClarity := some 4, sampleSizePower := none,
        randomization := none, statisticalApproach := none,
        overallQualityScore := some 80, keyLimitations := none }).researchQuestionClarity
      = some 2 ∧
    (dampen 55
      { researchQuestionClarity := some 4, sampleSizePower := none,
        randomization := none, statisticalApproach := none,
        overallQualityScore := some 80, keyLimitations := none }).overallQualityScore
      = some 40 := by
  have hsf : scaleFactor 55 = 1/2 := by norm_num [scaleFactor]
  have h4 : jsRound (2 : ℚ) = 2 := by
    rw [jsRound_eq, Int.floor_eq_iff] <;> norm_num
  have h80 : jsRound (40 : ℚ) = 40 := by
    rw [jsRound_eq, Int.floor_eq_iff] <;> norm_num
  refine ⟨?_, ?_, ?_, ?_, ?_⟩
  · intro pre self m h
    unfold dampen
    rw [if_neg (by omega)]
  · intro conf
    refine ⟨fun h => ?_, fun h1 h2 => ?_, fun h1 h2 => ?_, fun h1 h2 => ?_⟩ <;>
      · unfold scaleFactor
        split_ifs <;> first | rfl | (exfalso; omega)
  · intro conf m h
    refine ⟨?_, ?_, ?_, ?_, ?_, ?_⟩
    · intro v hv h1
      have hv0 : v ≠ 0 := by omega
      simp only [dampen, if_pos h, dampSub, hv, if_neg hv0]
      congr 1
      rcases Nat.lt_or_ge ((jsRound ((v : ℚ) * scaleFactor conf)).toNat) 1 with h' | h'
      · simp [h']
        omega
      · simp [h']
        omega
    · intro v hv h1
      have hv0 : v ≠ 0 := by omega
      simp only [dampen, if_pos h, dampSub, hv, if_neg hv0]
      congr 1
      rcases Nat.lt_or_ge ((jsRound ((v : ℚ) * scaleFactor conf)).toNat) 1 with h' | h'
      · simp [h']
        omega
      · simp [h']
        omega
    · intro v hv h1
      have hv0 : v ≠ 0 := by omega
      simp only [dampen, if_pos h, dampSub, hv, if_neg hv0]
      congr 1
      rcases Nat.lt_or_ge ((jsRound ((v : ℚ) * scaleFactor conf)).toNat) 1 with h' | h'
      · simp [h']
        omega
      · simp [h']
        omega
    · intro v hv h1
      have hv0 : v ≠ 0 := by omega
      simp only [dampen, if_pos h, dampSub, hv, if_neg hv0]
      congr 1
      rcases Nat.lt_or_ge ((jsRound ((v : ℚ) * scaleFactor conf)).toNat) 1 with h' | h'
      · simp [h']
        omega
      · simp [h']
        omega
    · intro w hw
      rcases Nat.eq_zero_or_pos w with rfl | hw0
      · simp only [dampen, if_pos h, dampOverall, hw, if_pos rfl, Nat.cast_zero, zero_mul]
        have h0 : jsRound 0 = 0 := by
          rw [jsRound_eq, Int.floor_eq_iff] <;> norm_num
        rw [h0]
        simp
      · have hw0' : w ≠ 0 := by omega
        simp only [dampen, if_pos h, dampOverall, hw, if_neg hw0']
    · simp only [dampen, if_pos h]
  · norm_num [dampen, dampSub, hsf, h4]
    rfl
  · norm_num [dampen, dampOverall, hsf, h80]
    rfl

/-- Witness for `c3_dampener`: the Scenario E instance, confidence 55. -/
theorem c3_dampener_witness :
    (dampen 55
      { researchQuestionClarity := some 4, sampleSizePower := some 5,
        randomization := none, statisticalApproach := some 1,
        overallQualityScore := some 80, keyLimitations := some ["prior"] }).researchQuestionClarity
      = some (max 1 ((jsRound ((4 : ℚ) * scaleFactor 55)).toNat)) ∧
    (dampen 55
      { researchQuestionClarity := some 4, sampleSizePower := some 5,
        randomization := none, statisticalApproach := some 1,
        overallQualityScore := some 80, keyLimitations := some ["prior"] }).overallQualityScore
      = some ((jsRound ((80 : ℚ) * scaleFactor 55)).toNat) ∧
    scaleFactor 55 = 1/2 ∧
    dampen (effectiveConfidence 80 (some 91))
      { researchQuestionClarity := some 4, sampleSizePower := some 5,
        randomization := none, statisticalApproach := some 1,
        overallQualityScore := some 80, keyLimitations := some ["prior"] } =
      { researchQuestionClarity := some 4, sampleSizePower := some 5,
        randomization := none, statisticalApproach := some 1,
        overallQualityScore := some 80, keyLimitations := some ["prior"] } :=
  ⟨(c3_dampener.2.2.1 55 _ (by decide)).1 4 rfl (by decide),
   (c3_dampener.2.2.1 55 _ (by decide)).2.2.2.2.1 80 rfl,
   (c3_dampener.2.1 55).2.1 (by decide) (by decide),
   c3_dampener.1 80 (some 91) _ (by decide)⟩

theorem applyOverride_fst (st0 fw0 : String) (ov : Option String × Option String)
    (h : st0 ≠ "Other") : (applyOverride st0 fw0 ov).1 = st0 := by
  rcases ov with ⟨o1, o2⟩
  cases o1 <;> simp [applyOverride, h]

theorem applyOverride_snd (st0 fw0 : String) (ov : Option String × Option String)
    (h : fw0 ≠ "None") : (applyOverride st0 fw0 ov).2 = fw0 := by
  rcases ov with ⟨o1, o2⟩
  cases o2 <;> simp [applyOverride, h]

/-- C8: never-overwrite precedence — a non-sentinel normalizer result is
never overwritten by the override engine or by the framework-inference
fallback, and the override engine returns `(null, null)` on empty text. -/
theorem c8_never_overwrite :
    (∀ stRaw fwRaw reasons, normalizeStudyType stRaw ≠ "Other" →
      (classifyParsed stRaw fwRaw reasons).1 = normalizeStudyType stRaw) ∧
    (∀ stRaw fwRaw reasons, normalizeFramework fwRaw ≠ "None" →
      (classifyParsed stRaw fwRaw reasons).2 = normalizeFramework fwRaw) ∧
    inferFromReasons "" = (none, none) := by
  refine ⟨?_, ?_, rfl⟩
  · intro stRaw fwRaw reasons h
    unfold classifyParsed
    dsimp only
    split
    · split
      · split <;> simp [applyOverride_fst, h]
      · simp [applyOverride_fst, h]
    · split
      · split <;> simp
      · simp
  · intro stRaw fwRaw reasons h
    unfold classifyParsed
    dsimp only
    split
    · split
      · rename_i hso
        simp [applyOverride_snd, h] at hso
      · simp [applyOverride_snd, h]
    · split
      · rename_i hso
        simp [h] at hso
      · simp

/-- Witness for `c8_never_overwrite`: a non-sentinel study type survives a
secondary-literature rationale, and a non-sentinel framework survives an
RCT rationale. -/
theorem c8_never_overwrite_witness :
    (classifyParsed (some "RCT") none (some ["is a systematic review of prior trials"])).1
      = normalizeStudyType (some "RCT") ∧
    (classifyParsed (some "Other") (some "PRISMA") (some ["randomized"])).2
      = normalizeFramework (some "PRISMA") :=
  ⟨c8_never_overwrite.1 _ _ _ (by decide),
   c8_never_overwrite.2.1 _ _ _ (by decide)⟩

/-- The primary-study indicator phrases named by the claim, all of which
are substring triggers of the normalizer's primary rules. -/
def primaryIndicatorPhrases : List String :=
  ["diagnostic accuracy", "case report", "case series", "qualitative", "basic science"]

/-- The secondary-literature indicator phrases. -/
def secondaryIndicatorPhrases : List String := ["systematic review", "meta-analysis"]

/-- The canonical study types that denote primary studies (every canonical
type except `Systematic Review`, `Meta-Analysis` and `Other`). -/
def primaryStudyTypes : List String :=
  ["RCT", "Cohort", "Case-Control", "Cross-Sectional", "Diagnostic Accuracy",
   "Case Report", "Case Series", "Qualitative", "Basic Science"]

/-- Primary trigger phrases of the override engine's rule cascade (one per
primary branch of `inferFromReasons`, which matches on richer contextual
phrases than the normalizer). -/
def reasonPrimaryPhrases : List String :=
  ["randomized", "cohort study", "case-control", "cross-sectional", "diagnostic accuracy",
   "case series", "case report", "qualitative", "in vitro"]

set_option maxHeartbeats 1600000 in
/-- C2: primary-before-secondary rule order.  Any string containing one of
the claim's primary indicator phrases normalizes to a primary study type
even when it also contains a secondary-literature phrase, because the
primary rules run strictly first; the override engine's cascade has the
same ordering on its own (richer) trigger phrases. -/
theorem c2_primary_before_secondary :
    (∀ s p q : String, p ∈ primaryIndicatorPhrases → q ∈ secondaryIndicatorPhrases →
      jsIncludes (jsLower (jsTrim s)) p = true → jsIncludes (jsLower (jsTrim s)) q = true →
      normalizeStudyType (some s) ∈ primaryStudyTypes) ∧
    (∀ t p q : String, p ∈ reasonPrimaryPhrases → q ∈ secondaryIndicatorPhrases →
      jsIncludes t p = true → jsIncludes t q = true →
      (inferFromReasons t).1 ∈ primaryStudyTypes.map some) := by
  constructor
  · intro s p q hp hq hps hqs
    simp only [primaryIndicatorPhrases, List.mem_cons, List.mem_singleton,
      List.not_mem_nil, or_false] at hp
    rcases hp with rfl | rfl | rfl | rfl | rfl <;>
      · by_cases hs : s = ""
        · exact absurd (hs ▸ hps) (by decide)
        · unfold normalizeStudyType
          dsimp only
          rw [if_neg hs]
          by_cases hC : canonicalStudyTypes.contains (jsTrim s) = true
          · rw [if_pos hC]
            have hmem : jsTrim s ∈ canonicalStudyTypes := List.mem_of_elem_eq_true hC
            simp only [canonicalStudyTypes, List.mem_cons, List.not_mem_nil, or_false] at hmem
            rcases hmem with h | h | h | h | h | h | h | h | h | h | h | h <;>
              rw [h] at hps ⊢ <;>
              first
                | decide
                | exact absurd hps (by decide)
          · rw [if_neg hC]
            simp only [hps, Bool.true_or, Bool.or_true, eq_self_iff_true, if_true]
            first
              | decide
              | split_ifs <;> decide
  · intro t p q hp hq hps hqs
    simp only [reasonPrimaryPhrases, List.mem_cons, List.mem_singleton,
      List.not_mem_nil, or_false] at hp
    rcases hp with rfl | rfl | rfl | rfl | rfl | rfl | rfl | rfl | rfl <;>
      · by_cases ht : t = ""
        · exact absurd (ht ▸ hps) (by decide)
        · unfold inferFromReasons
          dsimp only
          rw [if_neg ht]
          dsimp only
          simp only [hps, Bool.true_or, Bool.or_true, eq_self_iff_true, if_true]
          first
            | decide
            | split_ifs <;> decide

/-- Witness for `c2_primary_before_secondary`: a label containing both
"diagnostic accuracy" and "systematic review" normalizes to a primary
type, and rationale text containing both "qualitative" and
"meta-analysis" infers a primary type. -/
theorem c2_primary_before_secondary_witness :
    normalizeStudyType
      (some "a diagnostic accuracy study that includes a systematic review of prior work")
      ∈ primaryStudyTypes ∧
    (inferFromReasons "qualitative interviews; also cites a meta-analysis of earlier trials").1
      ∈ primaryStudyTypes.map some :=
  ⟨c2_primary_before_secondary.1
      "a diagnostic accuracy study that includes a systematic review of prior work"
      "diagnostic accuracy" "systematic review"
      (by decide) (by decide) (by decide) (by decide),
   c2_primary_before_secondary.2
      "qualitative interviews; also cites a meta-analysis of earlier trials"
      "qualitative" "meta-analysis"
      (by decide) (by decide) (by decide) (by decide)⟩

theorem jsRoundClamp_mono {q q' : ℚ} (h : q ≤ q') : jsRoundClamp q ≤ jsRoundClamp q' := by
  unfold jsRoundClamp
  apply Int.toNat_le_toNat
  rw [jsRound_eq, jsRound_eq]
  apply Int.floor_le_floor
  have : min 100 q ≤ min 100 q' := min_le_min (le_refl _) h
  have : max 0 (min 100 q) ≤ max 0 (min 100 q') := max_le_max (le_refl _) this
  linarith

/-- C4: monotone anti-pattern penalty.  For two texts with the same
keyword-evidence profile (identical per-category match counts), the
confidence is non-increasing in the number of anti-pattern matches,
since the base confidence is multiplied by `(3/4)^antiPatternMatches`
before clamping and rounding. -/
theorem c4_antipattern_monotone (t1 t2 : String)
    (h1 : 100 ≤ (jsTrim t1).length) (h2 : 100 ≤ (jsTrim t2).length)
    (hprof : categoryCount designKeywords t1 = categoryCount designKeywords t2 ∧
      categoryCount studyTypeKeywords t1 = categoryCount studyTypeKeywords t2 ∧
      categoryCount sampleKeywords t1 = categoryCount sampleKeywords t2 ∧
      categoryCount statisticsKeywords t1 = categoryCount statisticsKeywords t2 ∧
      categoryCount dataKeywords t1 = categoryCount dataKeywords t2 ∧
      categoryCount interventionKeywords t1 = categoryCount interventionKeywords t2 ∧
      categoryCount ethicsKeywords t1 = categoryCount ethicsKeywords t2)
    (hap : antiPatternCount t1 ≤ antiPatternCount t2) :
    (validateMethodologyText t2).confidence ≤ (validateMethodologyText t1).confidence := by
  obtain ⟨e1, e2, e3, e4, e5, e6, e7⟩ := hprof
  unfold validateMethodologyText
  dsimp only
  rw [if_neg (show ¬(jsTrim t2).length < 100 by omega),
      if_neg (show ¬(jsTrim t1).length < 100 by omega)]
  dsimp only
  rw [← e1, ← e2, ← e3, ← e4, ← e5, ← e6, ← e7]
  apply jsRoundClamp_mono
  apply mul_le_mul_of_nonneg_left
  · exact pow_le_pow_of_le_one (by norm_num) (by norm_num) hap
  · split
    · positivity
    · exact le_refl 0

/-- The sample methodology text with an appended anti-pattern phrase
("discussion") that introduces no new keyword matches. -/
def sampleMethodsTextAnti : String :=
  "In this randomized controlled trial, participants received placebo or active drug. A sample size calculation determined enrollment. Statistical analysis used regression models. Discussion follows."

/-- Witness for `c4_antipattern_monotone`: adding a "discussion"
anti-pattern phrase to the sample text cannot raise the confidence. -/
theorem c4_antipattern_monotone_witness :
    (validateMethodologyText sampleMethodsTextAnti).confidence ≤
      (validateMethodologyText sampleMethodsText).confidence := by
  apply c4_antipattern_monotone sampleMethodsText sampleMethodsTextAnti (by decide) (by decide)
    ⟨by decide, by decide, by decide, by decide, by decide, by decide, by decide⟩ (by decide)

theorem cats_ge_four (a b c d e f g : Nat) (hb : 0 < b) (hc : 0 < c) (hd : 0 < d) (hf : 0 < f) :
    4 ≤ (List.filter (fun p => 0 < p.2)
      [("design", a), ("studyType", b), ("sample", c), ("statistics", d),
       ("data", e), ("intervention", f), ("ethics", g)]).length := by
  simp only [List.filter_cons, List.filter_nil, decide_eq_true_eq, hb, hc, hd, hf, if_true]
  split_ifs <;> simp <;> omega

theorem le_jsRoundClamp (n : Nat) (q : ℚ) (hn : n ≤ 100) (h : (n : ℚ) ≤ q) :
    n ≤ jsRoundClamp q := by
  unfold jsRoundClamp
  rw [jsRound_eq]
  have h1 : (n : ℚ) ≤ min 100 q := le_min (by exact_mod_cast hn) h
  have h2 : (n : ℚ) ≤ max 0 (min 100 q) := h1.trans (le_max_right _ _)
  have h3 : ((n : ℤ) : ℚ) ≤ max 0 (min 100 q) + 1/2 := by push_cast; linarith
  have h4 : (n : ℤ) ≤ ⌊max 0 (min 100 q) + 1/2⌋ := Int.le_floor.mpr h3
  omega

/-- C9: scorer positive case.  Any text passing the length gate that
contains "randomized controlled trial", "placebo", "sample size
calculation" and "statistical analysis" and no anti-pattern phrase is
accepted with confidence at least 80. -/
theorem c9_scorer_positive (t : String)
    (hlen : 100 ≤ (jsTrim t).length)
    (hrct : jsIncludes (normText t) "randomized controlled trial" = true)
    (hplac : jsIncludes (normText t) "placebo" = true)
    (hssc : jsIncludes (normText t) "sample size calculation" = true)
    (hsa : jsIncludes (normText t) "statistical analysis" = true)
    (hap : ∀ kw ∈ antiPatternList, jsIncludes (normText t) kw = false) :
    (validateMethodologyText t).isValid = true ∧
      80 ≤ (validateMethodologyText t).confidence := by
  have h1 : jsIncludes (normText t) "randomized" = true := jsIncludes_trans hrct (by decide)
  have h2 : jsIncludes (normText t) "controlled trial" = true := jsIncludes_trans hrct (by decide)
  have h3 : jsIncludes (normText t) "sample size" = true := jsIncludes_trans hssc (by decide)
  have cST : 2 ≤ categoryCount studyTypeKeywords t := by
    have hsub : List.Sublist ["randomized", "controlled trial"] studyTypeKeywords := by decide
    have hle := hsub.countP_le (p := fun kw => jsIncludes (normText t) kw)
    simpa [categoryCount, List.countP_cons, h1, h2] using hle
  have cStat : 2 ≤ categoryCount statisticsKeywords t := by
    have hsub : List.Sublist ["statistical analysis", "sample size calculation"] statisticsKeywords := by decide
    have hle := hsub.countP_le (p := fun kw => jsIncludes (normText t) kw)
    simpa [categoryCount, List.countP_cons, hsa, hssc] using hle
  have cSam : 1 ≤ categoryCount sampleKeywords t := by
    have hsub : List.Sublist ["sample size"] sampleKeywords := by decide
    have hle := hsub.countP_le (p := fun kw => jsIncludes (normText t) kw)
    simpa [categoryCount, List.countP_cons, h3] using hle
  have cInt : 1 ≤ categoryCount interventionKeywords t := by
    have hsub : List.Sublist ["placebo"] interventionKeywords := by decide
    have hle := hsub.countP_le (p := fun kw => jsIncludes (normText t) kw)
    simpa [categoryCount, List.countP_cons, hplac] using hle
  have hap0 : antiPatternCount t = 0 := by
    unfold antiPatternCount
    rw [List.countP_eq_zero]
    intro a ha
    simp [hap a ha]
  suffices hconf : 80 ≤ (validateMethodologyText t).confidence by
    refine ⟨?_, hconf⟩
    have hiv : (validateMethodologyText t).isValid =
        decide (60 ≤ (validateMethodologyText t).confidence) := by
      unfold validateMethodologyText
      dsimp only
      rw [if_neg (show ¬(jsTrim t).length < 100 by omega)]
    rw [hiv, decide_eq_true_eq]
    omega
  unfold validateMethodologyText
  dsimp only
  rw [if_neg (show ¬(jsTrim t).length < 100 by omega)]
  dsimp only
  rw [hap0, pow_zero, mul_one]
  have qST : (2:ℚ) ≤ (categoryCount studyTypeKeywords t : ℚ) := by exact_mod_cast cST
  have qStat : (2:ℚ) ≤ (categoryCount statisticsKeywords t : ℚ) := by exact_mod_cast cStat
  have qSam : (1:ℚ) ≤ (categoryCount sampleKeywords t : ℚ) := by exact_mod_cast cSam
  have qInt : (1:ℚ) ≤ (categoryCount interventionKeywords t : ℚ) := by exact_mod_cast cInt
  have qD : (0:ℚ) ≤ (categoryCount designKeywords t : ℚ) := Nat.cast_nonneg _
  have qDat : (0:ℚ) ≤ (categoryCount dataKeywords t : ℚ) := Nat.cast_nonneg _
  have qE : (0:ℚ) ≤ (categoryCount ethicsKeywords t : ℚ) := Nat.cast_nonneg _
  rw [if_pos (show 2 ≤ categoryCount designKeywords t + categoryCount studyTypeKeywords t +
      categoryCount sampleKeywords t + categoryCount statisticsKeywords t +
      categoryCount dataKeywords t + categoryCount interventionKeywords t +
      categoryCount ethicsKeywords t ∧ _ by
    constructor
    · omega
    · push_cast
      linarith)]
  have hcats : 4 ≤ (List.filter (fun p => 0 < p.2)
      [("design", categoryCount designKeywords t), ("studyType", categoryCount studyTypeKeywords t),
       ("sample", categoryCount sampleKeywords t), ("statistics", categoryCount statisticsKeywords t),
       ("data", categoryCount dataKeywords t), ("intervention", categoryCount interventionKeywords t),
       ("ethics", categoryCount ethicsKeywords t)]).length :=
    cats_ge_four _ _ _ _ _ _ _ (by omega) (by omega) (by omega) (by omega)
  have qcats : (4:ℚ) ≤ ((List.filter (fun p => 0 < p.2)
      [("design", categoryCount designKeywords t), ("studyType", categoryCount studyTypeKeywords t),
       ("sample", categoryCount sampleKeywords t), ("statistics", categoryCount statisticsKeywords t),
       ("data", categoryCount dataKeywords t), ("intervention", categoryCount interventionKeywords t),
       ("ethics", categoryCount ethicsKeywords t)]).length : ℚ) := by exact_mod_cast hcats
  apply le_jsRoundClamp 80 _ (by norm_num)
  have m1 : (54:ℚ) ≤ min ((3 * (categoryCount designKeywords t : ℚ) +
      5/2 * (categoryCount studyTypeKeywords t : ℚ) + 2 * (categoryCount sampleKeywords t : ℚ) +
      5/2 * (categoryCount statisticsKeywords t : ℚ) + 3/2 * (categoryCount dataKeywords t : ℚ) +
      3/2 * (categoryCount interventionKeywords t : ℚ) + 1 * (categoryCount ethicsKeywords t : ℚ)) * 4) 60 := by
    apply le_min _ (by norm_num)
    linarith
  have m2 : (24:ℚ) ≤ min (((List.filter (fun p => 0 < p.2)
      [("design", categoryCount designKeywords t), ("studyType", categoryCount studyTypeKeywords t),
       ("sample", categoryCount sampleKeywords t), ("statistics", categoryCount statisticsKeywords t),
       ("data", categoryCount dataKeywords t), ("intervention", categoryCount interventionKeywords t),
       ("ethics", categoryCount ethicsKeywords t)]).length : ℚ) * 6) 25 := by
    apply le_min _ (by norm_num)
    linarith
  have m3 : (8:ℚ) ≤ min (((categoryCount designKeywords t + categoryCount statisticsKeywords t +
      categoryCount studyTypeKeywords t : Nat) : ℚ) * 2) 15 := by
    apply le_min _ (by norm_num)
    push_cast
    linarith
  linarith

/-- Witness for `c9_scorer_positive` at the concrete sample text. -/
theorem c9_scorer_positive_witness :
    (validateMethodologyText sampleMethodsText).isValid = true ∧
      80 ≤ (validateMethodologyText sampleMethodsText).confidence :=
  c9_scorer_positive sampleMethodsText (by decide) (by decide) (by decide)
    (by decide) (by decide) (by decide)

/-- Every phrase the validator scans for: the seven category keyword lists
followed by the anti-pattern list. -/
def allValidatorPhrases : List String :=
  designKeywords ++ studyTypeKeywords ++ sampleKeywords ++ statisticsKeywords ++
    dataKeywords ++ interventionKeywords ++ ethicsKeywords ++ antiPatternList

/-- C10: distinct-phrase counting.  The validator's output depends on the
text only through which trigger phrases occur at least once (so a phrase
repeated any number of times counts once), and every count is bounded by
the number of distinct phrases in its list. -/
theorem c10_distinct_counting :
    (∀ t1 t2 : String, 100 ≤ (jsTrim t1).length → 100 ≤ (jsTrim t2).length →
      (∀ kw ∈ allValidatorPhrases,
        jsIncludes (normText t1) kw = jsIncludes (normText t2) kw) →
      validateMethodologyText t1 = validateMethodologyText t2) ∧
    (∀ t : String,
      categoryCount designKeywords t ≤ designKeywords.length ∧
      categoryCount studyTypeKeywords t ≤ studyTypeKeywords.length ∧
      categoryCount sampleKeywords t ≤ sampleKeywords.length ∧
      categoryCount statisticsKeywords t ≤ statisticsKeywords.length ∧
      categoryCount dataKeywords t ≤ dataKeywords.length ∧
      categoryCount interventionKeywords t ≤ interventionKeywords.length ∧
      categoryCount ethicsKeywords t ≤ ethicsKeywords.length ∧
      antiPatternCount t ≤ antiPatternList.length) := by
  constructor
  · intro t1 t2 h1 h2 hsame
    have mk : ∀ kws : List String,
        (∀ kw ∈ kws, jsIncludes (normText t1) kw = jsIncludes (normText t2) kw) →
        categoryCount kws t1 = categoryCount kws t2 := fun kws hk =>
      List.countP_congr (fun kw hkw => by rw [hk kw hkw])
    have e1 := mk designKeywords (fun kw hk => hsame kw (by simp [allValidatorPhrases, hk]))
    have e2 := mk studyTypeKeywords (fun kw hk => hsame kw (by simp [allValidatorPhrases, hk]))
    have e3 := mk sampleKeywords (fun kw hk => hsame kw (by simp [allValidatorPhrases, hk]))
    have e4 := mk statisticsKeywords (fun kw hk => hsame kw (by simp [allValidatorPhrases, hk]))
    have e5 := mk dataKeywords (fun kw hk => hsame kw (by simp [allValidatorPhrases, hk]))
    have e6 := mk interventionKeywords (fun kw hk => hsame kw (by simp [allValidatorPhrases, hk]))
    have e7 := mk ethicsKeywords (fun kw hk => hsame kw (by simp [allValidatorPhrases, hk]))
    have e8 : antiPatternCount t1 = antiPatternCount t2 :=
      List.countP_congr (fun kw hkw => by
        rw [hsame kw (by simp [allValidatorPhrases, hkw])])
    unfold validateMethodologyText
    dsimp only
    rw [if_neg (show ¬(jsTrim t1).length < 100 by omega),
        if_neg (show ¬(jsTrim t2).length < 100 by omega)]
    rw [e1, e2, e3, e4, e5, e6, e7, e8]
  · intro t
    exact ⟨List.countP_le_length _, List.countP_le_length _, List.countP_le_length _,
      List.countP_le_length _, List.countP_le_length _, List.countP_le_length _,
      List.countP_le_length _, List.countP_le_length _⟩

/-- The sample text with "placebo" repeated three times; its phrase
profile is identical to `sampleMethodsText`'s. -/
def repeatedMethodsText : String :=
  "In this randomized controlled trial, participants received placebo or placebo or placebo and active drug. A sample size calculation determined enrollment. Statistical analysis used regression models."

/-- Witness for `c10_distinct_counting`: repeating "placebo" three times
yields the identical validation record. -/
theorem c10_distinct_counting_witness :
    validateMethodologyText sampleMethodsText = validateMethodologyText repeatedMethodsText ∧
    categoryCount designKeywords sampleMethodsText ≤ designKeywords.length :=
  ⟨c10_distinct_counting.1 sampleMethodsText repeatedMethodsText
      (by decide) (by decide) (by decide),
   (c10_distinct_counting.2 sampleMethodsText).1⟩
